import Mathlib

/-!
Verification development for the `streamable` / `kioss` lazy stream-processing
library.  The Python source is shallowly embedded: plan nodes become inductive
values, producers over a finished iteration become Lean functions on the list
of outcomes they would pull, and raised exceptions become `Except` errors.
-/

set_option autoImplicit false

namespace Streamable

universe u v

/-! ### Outcomes of pulling a compiled stream

`Stream.iterate` (src/streamable/_stream.py, lines 286-352) drives a `for`
loop over the compiled stream.  Each pull of the underlying (pre-catch)
pipeline either yields an element or raises an exception; a finished
iteration is therefore a finite list of such events.  User exceptions are
identified by a natural number id. -/

inductive Event (α : Type u) : Type u where
  | elem (a : α)
  | err (e : Nat)
deriving DecidableEq, Repr

/-- Exceptions that can escape `Stream.iterate`: a user exception propagated
or re-raised, or an IndexError from the `error_samples[0]` subscript. -/
inductive PyErr : Type where
  | user (id : Nat)
  | indexError
deriving DecidableEq, Repr

/-- The elements yielded by a trace, in order. -/
def elemsOf {α : Type u} : List (Event α) → List α
  | [] => []
  | .elem a :: rest => a :: elemsOf rest
  | .err _ :: rest => elemsOf rest

/-- The ids of the errors raised along a trace, in order. -/
def errorsOf {α : Type u} : List (Event α) → List Nat
  | [] => []
  | .elem _ :: rest => errorsOf rest
  | .err e :: rest => e :: errorsOf rest

/-- Stream._RUN_MAX_NUM_ERROR_SAMPLES (src/streamable/_stream.py, line 31). -/
def RUN_MAX_NUM_ERROR_SAMPLES : Nat := 8

/-- The closure `register_error_sample` defined inside `Stream.iterate`
(src/streamable/_stream.py, lines 327-332): increments `errors_count`,
appends the error to `error_samples` while fewer than
`max_num_error_samples` are stored, and returns True.  The returned triple
is (new errors_count, new error_samples, returned boolean). -/
def register_error_sample (count : Nat) (samples : List Nat) (e : Nat) :
    Nat × List Nat × Bool :=
  (count + 1,
   (if samples.length < RUN_MAX_NUM_ERROR_SAMPLES then samples ++ [e] else samples),
   true)

/-- Modelled from the spec: the catch-all wrapper installed by `iterate` when
`fail_fast=False` composes `stream.catch(Exception, when=register_error_sample)`
with the collection loop `for elem in stream: if len(output_samples) <
collect_limit: output_samples.append(elem)`.  The catcher itself
(`streamable/_visit/_iter.py`, not under src/) swallows an eligible error
exactly when the `when` predicate returns true, otherwise the error
propagates out of the loop (spec section 4.9).  The result is
((errors_count, error_samples, output_samples), escaped error if any). -/
def runLoop {α : Type u} (cl : Nat) :
    List (Event α) → Nat → List Nat → List α →
    (Nat × List Nat × List α) × Option PyErr
  | [], c, s, out => ((c, s, out), none)
  | .elem a :: rest, c, s, out =>
      runLoop cl rest c s (if out.length < cl then out ++ [a] else out)
  | .err e :: rest, c, s, out =>
      match register_error_sample c s e with
      | (c2, s2, keep) =>
          if keep then runLoop cl rest c2 s2 out
          else ((c2, s2, out), some (.user e))

/-- Modelled from the spec: the collection loop of `iterate` when
`fail_fast=True` — no catch wrapper is installed, so the first raised error
escapes the `for` loop (spec sections 4.12 and 7). -/
def failFastLoop {α : Type u} (cl : Nat) :
    List (Event α) → List α → Except PyErr (List α)
  | [], out => .ok out
  | .elem a :: rest, out =>
      failFastLoop cl rest (if out.length < cl then out ++ [a] else out)
  | .err e :: _, _ => .error (.user e)

/-- Stream.iterate (src/streamable/_stream.py, lines 286-352) on a given
trace of pulled outcomes.  Returns the final (errors_count, error_samples)
pair together with the outcome of the call: the collected `output_samples`
or the exception that escapes the call.  The `error_samples[0]` subscript in
the re-raise branch is modelled faithfully: on an empty list it is an
IndexError. -/
def iterateRun {α : Type u} (tr : List (Event α)) (cl rt : Nat)
    (failFast : Bool) : (Nat × List Nat) × Except PyErr (List α) :=
  if failFast then ((0, []), failFastLoop cl tr [])
  else
    match runLoop cl tr 0 [] [] with
    | ((c, s, _), some err) => ((c, s), .error err)
    | ((c, s, out), none) =>
        ((c, s),
         if 0 < c then
           if rt < c then
             match s with
             | [] => .error .indexError
             | e :: _ => .error (.user e)
           else .ok out
         else .ok out)

/-! ### Lemmas about the iteration driver -/

theorem take_sub_cons {α : Type u} (n m : Nat) (a : α) (l : List α)
    (h : m < n) :
    List.take (n - m) (a :: l) = a :: List.take (n - (m + 1)) l := by
  have h2 : n - m = (n - (m + 1)) + 1 := by omega
  rw [h2, List.take_succ_cons]

theorem runLoop_spec {α : Type u} (cl : Nat) (tr : List (Event α))
    (c : Nat) (s : List Nat) (out : List α) :
    runLoop cl tr c s out =
      ((c + (errorsOf tr).length,
        s ++ (errorsOf tr).take (RUN_MAX_NUM_ERROR_SAMPLES - s.length),
        out ++ (elemsOf tr).take (cl - out.length)), none) := by
  induction tr generalizing c s out with
  | nil => simp [runLoop, errorsOf, elemsOf]
  | cons ev rest ih =>
    cases ev with
    | elem a =>
      rw [runLoop, ih]
      by_cases h : out.length < cl
      · simp only [if_pos h, errorsOf, elemsOf,
          take_sub_cons cl out.length a (elemsOf rest) h]
        simp
      · have h0 : cl - out.length = 0 := by omega
        have h1 : cl - (out ++ [a]).length = 0 := by simp; omega
        simp [if_neg h, errorsOf, elemsOf, h0]
    | err e =>
      rw [runLoop]
      simp only [register_error_sample, if_true]
      rw [ih]
      by_cases h : s.length < RUN_MAX_NUM_ERROR_SAMPLES
      · simp only [if_pos h, errorsOf,
          take_sub_cons RUN_MAX_NUM_ERROR_SAMPLES s.length e (errorsOf rest) h,
          List.length_append, List.length_cons, List.length_singleton]
        simp [List.append_assoc]
        exact ⟨by omega, by simp [elemsOf]⟩
      · have h0 : RUN_MAX_NUM_ERROR_SAMPLES - s.length = 0 := by omega
        have h1 : RUN_MAX_NUM_ERROR_SAMPLES - (s.length + 1) = 0 := by omega
        simp [if_neg h, errorsOf, h0, h1]
        exact ⟨by omega, by simp [elemsOf]⟩

theorem failFastLoop_spec {α : Type u} (cl : Nat) (tr : List (Event α))
    (out : List α) :
    failFastLoop cl tr out =
      (match errorsOf tr with
       | [] => Except.ok (out ++ (elemsOf tr).take (cl - out.length))
       | e :: _ => Except.error (PyErr.user e)) := by
  induction tr generalizing out with
  | nil => simp [failFastLoop, errorsOf, elemsOf]
  | cons ev rest ih =>
    cases ev with
    | elem a =>
      rw [failFastLoop, ih]
      cases hrest : errorsOf rest with
      | nil =>
        simp only [errorsOf, hrest]
        by_cases h : out.length < cl
        · simp only [if_pos h, elemsOf,
            take_sub_cons cl out.length a (elemsOf rest) h]
          simp
        · have h0 : cl - out.length = 0 := by omega
          have h1 : cl - (out ++ [a]).length = 0 := by simp; omega
          simp [if_neg h, elemsOf, h0]
      | cons e t => simp [errorsOf, hrest]
    | err e => simp [failFastLoop, errorsOf]

theorem iterateRun_deferred_eq {α : Type u} (tr : List (Event α))
    (cl rt : Nat) :
    iterateRun tr cl rt false =
      (((errorsOf tr).length, (errorsOf tr).take RUN_MAX_NUM_ERROR_SAMPLES),
       if rt < (errorsOf tr).length
       then Except.error (PyErr.user ((errorsOf tr).headD 0))
       else Except.ok ((elemsOf tr).take cl)) := by
  simp only [iterateRun, Bool.false_eq_true, if_false,
    runLoop_spec cl tr 0 [] [], Nat.zero_add, Nat.sub_zero, List.nil_append]
  cases herrs : errorsOf tr with
  | nil => simp
  | cons e t =>
    have hs : (e :: t).take RUN_MAX_NUM_ERROR_SAMPLES = e :: t.take 7 := rfl
    by_cases hrt : rt < (e :: t).length
    · simp [hs, hrt]
    · simp [hs, hrt]

/-- C1: for every trace of iteration outcomes, `iterate` with
`fail_fast=False` keeps iterating past every error (the wrapping catch-all
`when` predicate `register_error_sample` always returns true), records as
samples exactly the first errors up to the cap of 8 (so at most 8), and
after exhaustion re-raises the first sampled error — which is the first
error raised — if and only if the total error count exceeds
`raise_if_more_errors_than`; otherwise it returns the collected elements. -/
theorem iterate_deferred_error_policy {α : Type u} (tr : List (Event α))
    (cl rt : Nat) :
    (∀ (c : Nat) (s : List Nat) (e : Nat),
        (register_error_sample c s e).2.2 = true) ∧
    (iterateRun tr cl rt false).1.1 = (errorsOf tr).length ∧
    (iterateRun tr cl rt false).1.2 =
      (errorsOf tr).take RUN_MAX_NUM_ERROR_SAMPLES ∧
    (iterateRun tr cl rt false).1.2.length ≤ RUN_MAX_NUM_ERROR_SAMPLES ∧
    (iterateRun tr cl rt false).2 =
      (if rt < (errorsOf tr).length
       then Except.error (PyErr.user ((errorsOf tr).headD 0))
       else Except.ok ((elemsOf tr).take cl)) := by
  refine ⟨fun c s e => rfl, ?_, ?_, ?_, ?_⟩ <;>
    simp [iterateRun_deferred_eq tr cl rt, List.length_take]

/-- C2: with `fail_fast=True` no catching wrapper is installed: the first
error raised during iteration escapes the `iterate` call unchanged, no
error is counted and none is sampled; when no error is raised the call
returns the collected elements. -/
theorem iterate_fail_fast_first_error {α : Type u} (tr : List (Event α))
    (cl rt : Nat) :
    iterateRun tr cl rt true =
      (((0 : Nat), ([] : List Nat)),
       match errorsOf tr with
       | [] => Except.ok ((elemsOf tr).take cl)
       | e :: _ => Except.error (PyErr.user e)) := by
  simp [iterateRun, failFastLoop_spec cl tr []]

/-- C7: `iterate` with `collect_limit=0` (the default) returns the empty
list when it does not raise, while still draining the whole trace — the
final error count equals the total number of errors raised along the full
trace; in general the returned list is exactly the first `collect_limit`
yielded elements. -/
theorem iterate_collect_limit {α : Type u} (tr : List (Event α)) (rt : Nat) :
    (iterateRun tr 0 rt false).1.1 = (errorsOf tr).length ∧
    (iterateRun tr 0 rt false).2 =
      (if rt < (errorsOf tr).length
       then Except.error (PyErr.user ((errorsOf tr).headD 0))
       else Except.ok ([] : List α)) ∧
    (∀ cl : Nat,
        (iterateRun tr cl rt false).2 =
          (if rt < (errorsOf tr).length
           then Except.error (PyErr.user ((errorsOf tr).headD 0))
           else Except.ok ((elemsOf tr).take cl))) := by
  refine ⟨?_, ?_, fun cl => ?_⟩ <;>
    simp [iterateRun_deferred_eq tr _ rt]

/-- C9: in `iterate` with `fail_fast=False`, whenever the final error count
is positive the `error_samples` list is non-empty (the sample capacity 8 is
at least 1, so the first counted error is always appended), hence the
`error_samples[0]` subscript never raises an IndexError. -/
theorem error_samples_nonempty {α : Type u} (tr : List (Event α))
    (cl rt : Nat) :
    (0 < (iterateRun tr cl rt false).1.1 →
      (iterateRun tr cl rt false).1.2 ≠ []) ∧
    (iterateRun tr cl rt false).2 ≠ Except.error PyErr.indexError := by
  rw [iterateRun_deferred_eq tr cl rt]
  constructor
  · cases herrs : errorsOf tr with
    | nil => intro hpos; simp at hpos
    | cons e t =>
      intro hpos
      have hs : (e :: t).take RUN_MAX_NUM_ERROR_SAMPLES = e :: t.take 7 := rfl
      simp [hs]
  · by_cases hrt : rt < (errorsOf tr).length
    · simp [hrt]
    · simp [hrt]

/-- C9 witness: on the one-error trace the error count is positive and the
samples list is non-empty. -/
theorem error_samples_nonempty_witness :
    (iterateRun ([Event.err 5] : List (Event Nat)) 0 0 false).1.2 ≠
      ([] : List Nat) :=
  (error_samples_nonempty ([Event.err 5] : List (Event Nat)) 0 0).1 (by decide)

/-! ### The kioss iterator-generating visitor (src/kioss/_visitor.py)

Producers are modelled on a finished error-free iteration by the list of
elements they yield. -/

namespace Kioss

/-- Modelled from the spec: `ThreadedMappingIteratorWrapper`
(src/kioss/_concurrent_exec.py is not under src/).  Per spec section 4.3
the producer keeps a bounded FIFO of at most `n_workers` futures: it pulls
the next upstream element, submits `func(elem)` and appends the future to
the FIFO tail; once the FIFO is full it blocks on the head future and
yields its value, and on upstream exhaustion the remaining futures are
yielded head first.  On an error-free upstream every future completes with
`func` applied to its element, so the FIFO is a list of results. -/
def threadedMapRun {α : Type u} {β : Type v} (func : α → β) (n_workers : Nat) :
    List α → List β → List β
  | [], fifo => fifo
  | x :: rest, fifo =>
      let fifo2 := fifo ++ [func x]
      if fifo2.length < n_workers then threadedMapRun func n_workers rest fifo2
      else fifo2.headD (func x) :: threadedMapRun func n_workers rest fifo2.tail

/-- IteratorGeneratingVisitor.visitMapPipe (src/kioss/_visitor.py, lines
64-70): with `n_threads == 1` the builtin `map` is returned, otherwise the
threaded wrapper over the upstream producer. -/
def visitMapPipe {α : Type u} {β : Type v} (func : α → β) (n_threads : Nat)
    (upstream : List α) : List β :=
  if n_threads = 1 then upstream.map func
  else threadedMapRun func n_threads upstream []

/-- Concatenation of a list of materialized iterators, as performed by
the Python builtin `itertools.chain`: each iterator is fully consumed before the next
one is pulled. -/
def chainIters {α : Type u} : List (List α) → List α
  | [] => []
  | it :: rest => it ++ chainIters rest

/-- IteratorGeneratingVisitor.visitChainPipe (src/kioss/_visitor.py, lines
80-81): `itertools.chain(pipe.upstream, *pipe.others)`. -/
def visitChainPipe {α : Type u} (upstream : List α)
    (others : List (List α)) : List α :=
  chainIters (upstream :: others)

theorem threadedMapRun_eq_map {α : Type u} {β : Type v} (func : α → β)
    (n_workers : Nat) (xs : List α) (fifo : List β) :
    threadedMapRun func n_workers xs fifo = fifo ++ xs.map func := by
  induction xs generalizing fifo with
  | nil => simp [threadedMapRun]
  | cons x rest ih =>
    rw [threadedMapRun]
    by_cases h : (fifo ++ [func x]).length < n_workers
    · simp only [if_pos h, ih]
      simp
    · simp only [if_neg h, ih]
      cases fifo with
      | nil => simp
      | cons y t => simp

end Kioss

/-- C3: for every function, every concurrency `k ≥ 1` and every upstream
element sequence, the producer compiled by `visitMapPipe` yields exactly
`func` applied to each upstream element, in upstream order — both in the
single-threaded branch and in the threaded one. -/
theorem visitMapPipe_in_order {α : Type u} {β : Type v} (func : α → β)
    (k : Nat) (upstream : List α) (_h : 1 ≤ k) :
    Kioss.visitMapPipe func k upstream = upstream.map func := by
  rw [Kioss.visitMapPipe]
  by_cases hk : k = 1
  · rw [if_pos hk]
  · rw [if_neg hk, Kioss.threadedMapRun_eq_map]
    simp

/-- C3 witness: squaring with concurrency 3. -/
theorem visitMapPipe_in_order_witness :
    Kioss.visitMapPipe (fun n : Nat => n * n) 3 [1, 2, 3] =
      [1, 2, 3].map (fun n : Nat => n * n) :=
  visitMapPipe_in_order (fun n : Nat => n * n) 3 [1, 2, 3] (by decide)

/-- C4: iterating the producer compiled from `a.chain(b, c)` yields the
concatenation of the elements of `a`, then `b`, then `c`, strictly left to
right; in general chaining consumes each stream fully before starting the
next one, concatenating in order. -/
theorem visitChainPipe_concat {α : Type u} (a b c : List α) :
    Kioss.visitChainPipe a [b, c] = a ++ b ++ c ∧
    (∀ (first : List α) (others : List (List α)),
        Kioss.visitChainPipe first others =
          first ++ Kioss.chainIters others) := by
  constructor
  · simp [Kioss.visitChainPipe, Kioss.chainIters]
  · intro first others
    rw [Kioss.visitChainPipe, Kioss.chainIters]

/-! ### Python numeric arguments and builder validation -/

/-- A Python value passed where a number is expected: an int, a float or a
bool.  Python compares all three numerically and `bool` is a subclass of
`int` (so `isinstance(True, int)` holds). -/
inductive PyNum : Type where
  | int (n : Int)
  | float (q : Rat)
  | bool (b : Bool)
deriving DecidableEq, Repr

/-- The numeric value of a `PyNum` under Python comparison: `True == 1` and
`False == 0`. -/
def PyNum.toRat : PyNum → Rat
  | .int n => (n : Rat)
  | .float q => q
  | .bool b => if b then 1 else 0

/-- Python `isinstance(x, int)`: true for ints and bools (bool subclasses
int), false for floats. -/
def PyNum.isInstInt : PyNum → Bool
  | .int _ => true
  | .float _ => false
  | .bool _ => true

/-- A Python float argument: a finite value or the infinity produced by
`float("inf")`, the default for batch seconds. -/
inductive PyFloat : Type where
  | val (q : Rat)
  | inf
deriving DecidableEq, Repr

/-- Python comparison `x <= 0` on a float: infinity is positive. -/
def PyFloat.leZero : PyFloat → Bool
  | .val q => decide (q ≤ 0)
  | .inf => false

/-- An exception raised synchronously by a builder method. -/
inductive BuildError : Type where
  | valueError (msg : String)
  | typeError (msg : String)
deriving DecidableEq, Repr

/-- The plan nodes built by the streamable builder methods
(src/streamable/_stream.py, classes at lines 360-448), untyped: each node
records its operator kind, its validated parameters and its upstream
child. -/
inductive Node : Type where
  | source
  | map (upstream : Node) (concurrency : PyNum)
  | doOp (upstream : Node) (concurrency : PyNum)
  | flatten (upstream : Node) (concurrency : PyNum)
  | batch (upstream : Node) (size : Int) (seconds : PyFloat)
  | slow (upstream : Node) (frequency : PyFloat)
deriving DecidableEq, Repr

/-- Stream._validate_concurrency (src/streamable/_stream.py, lines 67-72):
raises ValueError when `concurrency < 1` under numeric comparison; no type
check is performed.  The Python f-string also interpolates the offending
value into the message. -/
def validate_concurrency (concurrency : PyNum) : Except BuildError Unit :=
  if concurrency.toRat < 1 then
    .error (.valueError "concurrency should be greater or equal to 1")
  else .ok ()

/-- Stream.map as a builder (src/streamable/_stream.py, lines 74-89):
validates concurrency then returns the MapStream node. -/
def Stream.map (upstream : Node) (concurrency : PyNum) :
    Except BuildError Node :=
  match validate_concurrency concurrency with
  | .error e => .error e
  | .ok _ => .ok (.map upstream concurrency)

/-- Stream.do as a builder (src/streamable/_stream.py, lines 91-107):
validates concurrency then returns the DoStream node. -/
def Stream.doOp (upstream : Node) (concurrency : PyNum) :
    Except BuildError Node :=
  match validate_concurrency concurrency with
  | .error e => .error e
  | .ok _ => .ok (.doOp upstream concurrency)

/-- Stream.flatten as a builder (src/streamable/_stream.py, lines 172-185):
validates concurrency then returns the FlattenStream node. -/
def Stream.flatten (upstream : Node) (concurrency : PyNum) :
    Except BuildError Node :=
  match validate_concurrency concurrency with
  | .error e => .error e
  | .ok _ => .ok (.flatten upstream concurrency)

/-- Stream.batch as a builder (src/streamable/_stream.py, lines 212-231):
raises ValueError when `size < 1`, then when `seconds <= 0`, and otherwise
returns the BatchStream node. -/
def Stream.batch (upstream : Node) (size : Int) (seconds : PyFloat) :
    Except BuildError Node :=
  if size < 1 then .error (.valueError "batch size should be >= 1")
  else if seconds.leZero then
    .error (.valueError "batch seconds should be > 0")
  else .ok (.batch upstream size seconds)

/-- Stream.slow as a builder (src/streamable/_stream.py, lines 233-247):
raises ValueError when `frequency <= 0`, and otherwise returns the
SlowStream node. -/
def Stream.slow (upstream : Node) (frequency : PyFloat) :
    Except BuildError Node :=
  if frequency.leZero then
    .error (.valueError "frequency must be > 0")
  else .ok (.slow upstream frequency)

/-- The `source` argument of `Stream.__init__`: either a callable or some
non-callable object carrying its type name. -/
inductive PySourceArg : Type where
  | callable (typeName : String)
  | notCallable (typeName : String)
deriving DecidableEq, Repr

/-- Stream.__init__ (src/streamable/_stream.py, lines 33-43): raises
TypeError when the provided source is not callable, interpolating the type
of the offending value into the message. -/
def Stream.init (source : PySourceArg) : Except BuildError Node :=
  match source with
  | .notCallable t =>
      .error (.typeError ("source must be a callable but got a " ++ t))
  | .callable _ => .ok .source

namespace Kioss

/-- Pipe.sanitize_n_threads (src/kioss/_pipe.py, lines 59-68): first raises
TypeError when `n_threads` is not an instance of `int` (so floats are
rejected but bools pass, bool being a subclass of int), then raises
ValueError when `n_threads < 1`. -/
def sanitize_n_threads (n_threads : PyNum) : Except BuildError Unit :=
  if ¬ n_threads.isInstInt then
    .error (.typeError "n_threads should be an int")
  else if n_threads.toRat < 1 then
    .error (.valueError "n_threads should be greater or equal to 1")
  else .ok ()

/-- Pipe.map as a builder (src/kioss/_pipe.py, lines 70-85): sanitizes
n_threads then returns the MapPipe node. -/
def Pipe.map (upstream : Node) (n_threads : PyNum) :
    Except BuildError Node :=
  match sanitize_n_threads n_threads with
  | .error e => .error e
  | .ok _ => .ok (.map upstream n_threads)

/-- An arbitrary Python object as returned by a source factory: its `repr`,
its type name, and whether it implements the `__iter__` and `__next__`
methods. -/
structure PyObj : Type where
  reprStr : String
  typeName : String
  hasIterMethod : Bool
  hasNextMethod : Bool
deriving DecidableEq, Repr

/-- Modelled from the spec: `_util.duck_check_type_is_iterator`
(src/kioss/_util.py is not under src/).  Per the spec (section 4.1 and the
comment at src/kioss/_visitor.py line 56) it duck-type checks that the
object implements both `__iter__` and `__next__`, raising a TypeError
otherwise. -/
def duck_check_type_is_iterator (obj : PyObj) : Except BuildError Unit :=
  if obj.hasIterMethod && obj.hasNextMethod then .ok ()
  else .error (.typeError "object is not an iterator")

/-- The TypeError message built by visitSourcePipe (src/kioss/_visitor.py,
lines 59-61); the f-string interpolates the offending object and its type
(the Python original quotes the object with single quotes, elided here). -/
def sourceTypeMsg (obj : PyObj) : String :=
  "source must be a callable returning an iterator (implements __iter__ and __next__ methods), but the object resulting from a call to source() was not an iterator: got "
    ++ obj.reprStr ++ " of type " ++ obj.typeName ++ "."

/-- The `source` argument of the kioss SourcePipe: a factory callable (the
object it returns when called) or a non-callable object. -/
inductive PyFactory : Type u where
  | fn (factory : Unit → PyObj)
  | notCallable (reprStr typeName : String)

/-- SourcePipe.__init__ (src/kioss/_pipe.py, lines 263-279): raises
TypeError when the provided source is not callable, and otherwise stores
the factory without calling it. -/
def SourcePipe.init (source : PyFactory) : Except BuildError PyFactory :=
  match source with
  | .notCallable r t =>
      .error (.typeError ("source must be a callable returning an iterator, but the provided source is not a callable: got source "
        ++ r ++ " of type " ++ t ++ "."))
  | .fn factory => .ok (.fn factory)

/-- IteratorGeneratingVisitor.visitSourcePipe (src/kioss/_visitor.py, lines
53-62): calls the stored factory, duck-checks that the returned object is
an iterator, and re-raises the TypeError of the check with a descriptive message
naming the offending value and its type; a proper iterator is exposed
directly. -/
def visitSourcePipe (source : Unit → PyObj) : Except BuildError PyObj :=
  let iterator := source ()
  match duck_check_type_is_iterator iterator with
  | .ok _ => .ok iterator
  | .error _ => .error (.typeError (sourceTypeMsg iterator))

/-- LogPipe (src/kioss/_pipe.py, lines 317-324): records the upstream
producer, the `what` descriptor and the `colored` flag. -/
structure LogPipe (α : Type u) : Type u where
  upstream : List α
  what : String
  colored : Bool

/-- `_exec.LoggingIteratorWrapper` as constructed by the visitor: it
receives exactly two arguments, the compiled upstream producer and the
`what` descriptor (src/kioss/_visitor.py, line 100). -/
structure LoggingIteratorWrapper (α : Type u) : Type u where
  upstream : List α
  what : String

/-- IteratorGeneratingVisitor.visitLogPipe (src/kioss/_visitor.py, lines
99-100): `LoggingIteratorWrapper(pipe.upstream._accept(self), pipe.what)` —
`pipe.colored` is never read. -/
def visitLogPipe {α : Type u} (pipe : LogPipe α) : LoggingIteratorWrapper α :=
  LoggingIteratorWrapper.mk pipe.upstream pipe.what

end Kioss

/-- C5: every builder misuse is rejected synchronously by the builder
itself, before any iteration: map, do and flatten raise a ValueError
exactly when the concurrency compares below 1; batch raises a ValueError
exactly when `size < 1` or `seconds <= 0`; slow raises a ValueError exactly
when `frequency <= 0`; constructing a stream from a non-callable source
raises a TypeError; valid arguments build the corresponding plan node. -/
theorem builders_validate_at_build_time (up : Node) (c : PyNum) (size : Int)
    (seconds frequency : PyFloat) (t : String) :
    ((∃ m, Stream.map up c = .error (.valueError m)) ↔ c.toRat < 1) ∧
    ((∃ m, Stream.doOp up c = .error (.valueError m)) ↔ c.toRat < 1) ∧
    ((∃ m, Stream.flatten up c = .error (.valueError m)) ↔ c.toRat < 1) ∧
    (Stream.map up c = .ok (.map up c) ↔ ¬ c.toRat < 1) ∧
    (Stream.doOp up c = .ok (.doOp up c) ↔ ¬ c.toRat < 1) ∧
    (Stream.flatten up c = .ok (.flatten up c) ↔ ¬ c.toRat < 1) ∧
    ((∃ m, Stream.batch up size seconds = .error (.valueError m)) ↔
      (size < 1 ∨ seconds.leZero = true)) ∧
    (Stream.batch up size seconds = .ok (.batch up size seconds) ↔
      (1 ≤ size ∧ seconds.leZero = false)) ∧
    ((∃ m, Stream.slow up frequency = .error (.valueError m)) ↔
      frequency.leZero = true) ∧
    (Stream.slow up frequency = .ok (.slow up frequency) ↔
      frequency.leZero = false) ∧
    (∃ m, Stream.init (.notCallable t) = .error (.typeError m)) ∧
    Stream.init (.callable t) = .ok .source := by
  by_cases hc : c.toRat < 1 <;>
    by_cases hsize : size < 1 <;>
      by_cases hsec : seconds.leZero = true <;>
        by_cases hfr : frequency.leZero = true <;>
          simp [Stream.map, Stream.doOp, Stream.flatten, Stream.batch,
            Stream.slow, Stream.init, validate_concurrency, hc, hsize, hsec,
            hfr, Int.not_lt] <;>
          omega

/-- C6: the check that the factory returned an iterator happens when the
source producer is first used, not when the plan is built (a callable
factory is stored without error at SourcePipe construction); the first use
raises a descriptive TypeError whose message interpolates the offending
object and its type exactly when the returned object lacks `__iter__` or
`__next__`, and a factory returning a proper iterator raises nothing and
exposes the iterator directly. -/
theorem visitSourcePipe_checks_iterator (factory : Unit → Kioss.PyObj) :
    Kioss.SourcePipe.init (.fn factory) = .ok (.fn factory) ∧
    Kioss.visitSourcePipe factory =
      (if ((factory ()).hasIterMethod && (factory ()).hasNextMethod) = true
       then .ok (factory ())
       else .error (.typeError (Kioss.sourceTypeMsg (factory ())))) ∧
    Kioss.sourceTypeMsg (factory ()) =
      "source must be a callable returning an iterator (implements __iter__ and __next__ methods), but the object resulting from a call to source() was not an iterator: got "
        ++ (factory ()).reprStr ++ " of type " ++ (factory ()).typeName
        ++ "." := by
  refine ⟨rfl, ?_, rfl⟩
  by_cases h : ((factory ()).hasIterMethod && (factory ()).hasNextMethod) = true
  · simp [Kioss.visitSourcePipe, Kioss.duck_check_type_is_iterator, h]
  · simp [Kioss.visitSourcePipe, Kioss.duck_check_type_is_iterator, h]

/-- C8 (code bug): visitLogPipe constructs the logging producer from the
upstream producer and `what` only — `pipe.colored` is never read — so the
producers compiled from an observe/log node with `colored=True` and with
`colored=False` are identical and the emitted log entries cannot depend on
`colored`, contradicting the claim (and the docstring of the builder) that
`colored` toggles ANSI colorization of the log output. -/
theorem visitLogPipe_ignores_colored :
    Kioss.visitLogPipe (Kioss.LogPipe.mk ([0, 1] : List Nat) "elements" true) =
      Kioss.visitLogPipe
        (Kioss.LogPipe.mk ([0, 1] : List Nat) "elements" false) :=
  rfl

/-- C8 general form: for every upstream producer and descriptor, the
compiled logging producer is the same for both values of `colored`. -/
theorem visitLogPipe_colored_irrelevant {α : Type u} (upstream : List α)
    (what : String) (b1 b2 : Bool) :
    Kioss.visitLogPipe (Kioss.LogPipe.mk upstream what b1) =
      Kioss.visitLogPipe (Kioss.LogPipe.mk upstream what b2) :=
  rfl

theorem Stream.map_eq (up : Node) (c : PyNum) :
    Stream.map up c =
      (if c.toRat < 1
       then .error (.valueError "concurrency should be greater or equal to 1")
       else .ok (.map up c)) := by
  rw [Stream.map, validate_concurrency]
  by_cases hc : c.toRat < 1 <;> simp [hc]

theorem Stream.doOp_eq (up : Node) (c : PyNum) :
    Stream.doOp up c =
      (if c.toRat < 1
       then .error (.valueError "concurrency should be greater or equal to 1")
       else .ok (.doOp up c)) := by
  rw [Stream.doOp, validate_concurrency]
  by_cases hc : c.toRat < 1 <;> simp [hc]

theorem Stream.flatten_eq (up : Node) (c : PyNum) :
    Stream.flatten up c =
      (if c.toRat < 1
       then .error (.valueError "concurrency should be greater or equal to 1")
       else .ok (.flatten up c)) := by
  rw [Stream.flatten, validate_concurrency]
  by_cases hc : c.toRat < 1 <;> simp [hc]

theorem Pipe.map_sanitized_eq (up : Node) (n : PyNum) :
    Kioss.Pipe.map up n =
      (if n.isInstInt = false
       then .error (.typeError "n_threads should be an int")
       else if n.toRat < 1
       then .error (.valueError "n_threads should be greater or equal to 1")
       else .ok (.map up n)) := by
  rw [Kioss.Pipe.map, Kioss.sanitize_n_threads]
  by_cases hi : n.isInstInt = true <;>
    by_cases hn : n.toRat < 1 <;> simp [hi, hn]

/-- C10: the streamable concurrency validation checks only the numeric
value: map, do and flatten accept any value comparing at least 1 —
including the float 2.5 and the boolean True — and raise a ValueError
exactly when the value compares below 1, never a TypeError; the kioss
builder additionally raises a TypeError exactly for arguments that are not
instances of int (bool being an int subclass passes the kioss check). -/
theorem concurrency_value_only (up : Node) (c : PyNum) :
    (Stream.map up c = .ok (.map up c) ↔ 1 ≤ c.toRat) ∧
    (Stream.doOp up c = .ok (.doOp up c) ↔ 1 ≤ c.toRat) ∧
    (Stream.flatten up c = .ok (.flatten up c) ↔ 1 ≤ c.toRat) ∧
    ((∃ m, Stream.map up c = .error (.valueError m)) ↔ c.toRat < 1) ∧
    ((∃ m, Stream.map up c = .error (.typeError m)) ↔ False) ∧
    Stream.map up (.float (5 / 2)) = .ok (.map up (.float (5 / 2))) ∧
    Stream.map up (.bool true) = .ok (.map up (.bool true)) ∧
    Kioss.Pipe.map up (.bool true) = .ok (.map up (.bool true)) ∧
    ((∃ m, Kioss.Pipe.map up c = .error (.typeError m)) ↔
      c.isInstInt = false) := by
  have h52 : ¬ (PyNum.float (5 / 2)).toRat < 1 := by
    norm_num [PyNum.toRat]
  have hb1 : ¬ (PyNum.bool true).toRat < 1 := by
    norm_num [PyNum.toRat]
  refine ⟨?_, ?_, ?_, ?_, ?_, ?_, ?_, ?_, ?_⟩
  · by_cases hc : c.toRat < 1
    · simp [Stream.map_eq, hc, not_le.mpr hc]
    · simp [Stream.map_eq, hc, not_lt.mp hc]
  · by_cases hc : c.toRat < 1
    · simp [Stream.doOp_eq, hc, not_le.mpr hc]
    · simp [Stream.doOp_eq, hc, not_lt.mp hc]
  · by_cases hc : c.toRat < 1
    · simp [Stream.flatten_eq, hc, not_le.mpr hc]
    · simp [Stream.flatten_eq, hc, not_lt.mp hc]
  · by_cases hc : c.toRat < 1 <;> simp [Stream.map_eq, hc]
  · by_cases hc : c.toRat < 1 <;> simp [Stream.map_eq, hc]
  · simp [Stream.map_eq, h52]
  · simp [Stream.map_eq, hb1]
  · simp [Pipe.map_sanitized_eq, hb1, PyNum.isInstInt]
  · by_cases hi : c.isInstInt = true <;>
      by_cases hc : c.toRat < 1 <;> simp [Pipe.map_sanitized_eq, hi, hc]

end Streamable
